import Mathlib

/-
Verification of the hacker-stories core: the stories reducer, the filter
projection, the persisted key-value cell and the load orchestration,
shallowly embedded from src/src/App.tsx.
-/

/-- A story record, from the `Story` type in App.tsx.  `objectID` is the
identity; `num_comments` and `points` are non-negative counts. -/
structure Story where
  objectID : Int
  url : String
  title : String
  author : String
  num_comments : Nat
  points : Nat
deriving DecidableEq, Repr

/-- First element of `initialStories` in App.tsx. -/
def story0 : Story :=
  ⟨0, "https://reactjs.org/", "React", "Jordan Walke", 3, 4⟩

/-- Second element of `initialStories` in App.tsx. -/
def story1 : Story :=
  ⟨1, "https://redux.js.org/", "Redux", "Dan Abramov, Andrew Clark", 2, 5⟩

/-- The seed collection `initialStories` in App.tsx. -/
def initialStories : List Story := [story0, story1]

/-- The closed action variant set `StoriesAction` of App.tsx:
`SET_STORIES` carries a list of stories, `REMOVE_STORY` carries one story. -/
inductive StoriesAction where
  | SET_STORIES (payload : List Story)
  | REMOVE_STORY (payload : Story)
deriving DecidableEq, Repr

/-- The reducer `storiesReducer` of App.tsx restricted to the well-typed
action set (the TypeScript union).  `SET_STORIES` returns the payload;
`REMOVE_STORY` keeps exactly the stories whose `objectID` differs from the
payload story (source: `state.filter(story => action.payload.objectID !==
story.objectID)`). -/
def storiesReducer (state : List Story) (action : StoriesAction) : List Story :=
  match action with
  | StoriesAction.SET_STORIES payload => payload
  | StoriesAction.REMOVE_STORY payload =>
      state.filter (fun story => payload.objectID != story.objectID)

/-- Payload of a dynamically typed action: either a list of stories or a
single story, the two payload shapes occurring in `StoriesAction`. -/
inductive DynPayload where
  | stories (l : List Story)
  | story (s : Story)
deriving DecidableEq

/-- An action as the JavaScript switch sees it: a string tag plus a
payload.  Tags outside the TypeScript union can be represented. -/
structure DynAction where
  type : String
  payload : DynPayload
deriving DecidableEq

/-- The reducer as a dynamic dispatch on the string tag, with the fatal
default branch of App.tsx (`default: throw new Error()`) modelled as
`none`.  The two tag/payload mismatches are unreachable under the
TypeScript typing of `StoriesAction` and are mapped to `none` as well;
theorems about this function assume `wellTypedAction`. -/
def storiesReducerDyn (state : List Story) (a : DynAction) : Option (List Story) :=
  if a.type = "SET_STORIES" then
    match a.payload with
    | DynPayload.stories l => some l
    | DynPayload.story _ => none
  else if a.type = "REMOVE_STORY" then
    match a.payload with
    | DynPayload.story s =>
        some (state.filter (fun story => s.objectID != story.objectID))
    | DynPayload.stories _ => none
  else none

/-- The typing discipline TypeScript enforces on `StoriesAction`: a
`SET_STORIES` tag carries a list payload and a `REMOVE_STORY` tag carries
a single story payload. -/
def wellTypedAction : DynAction → Prop
  | ⟨t, DynPayload.stories _⟩ => t ≠ "REMOVE_STORY"
  | ⟨t, DynPayload.story _⟩ => t ≠ "SET_STORIES"

/-- Character-wise lower-casing, modelling the locale-independent simple
lower-casing performed by `toLowerCase()` on the strings occurring here. -/
def strToLower (s : String) : String := ⟨s.data.map Char.toLower⟩

/-- Substring containment, modelling `haystack.includes(needle)`:
true when `needle` occurs contiguously inside `haystack`. -/
def jsIncludes (needle : List Char) : List Char → Bool
  | [] => needle.isEmpty
  | c :: rest => needle.isPrefixOf (c :: rest) || jsIncludes needle rest

/-- The filter predicate of the `searchedStories` projection in App.tsx:
`story.title.toLowerCase().includes(searchTerm.toLowerCase())`. -/
def titleMatches (story : Story) (term : String) : Bool :=
  jsIncludes (strToLower term).data (strToLower story.title).data

/-- The filter projection `searchedStories` of App.tsx. -/
def searchedStories (stories : List Story) (searchTerm : String) : List Story :=
  stories.filter (fun story => titleMatches story searchTerm)

/-- JavaScript `x || y` for `x` a nullable string: returns `y` when `x`
is null or the empty string (both falsy), else `x`. -/
def jsOr (x : Option String) (y : String) : String :=
  match x with
  | none => y
  | some s => if s = "" then y else s

/-- Initial value of the persisted key-value cell `useStorageState` in
App.tsx: `localStorage.getItem(key) || initialState`, with the durable
store abstracted as a partial map from keys to strings. -/
def useStorageStateInit (store : String → Option String) (key fallback : String) : String :=
  jsOr (store key) fallback

/-- A store holding the empty string under the key "search". -/
def storeWithEmptySearch : String → Option String :=
  fun k => if k = "search" then some "" else none

/-- A store holding "Redux" under the key "search". -/
def storeWithRedux : String → Option String :=
  fun k => if k = "search" then some "Redux" else none

/-- Result payload of `getAsyncStories`: the `data.stories` wrapper. -/
structure FetchData where
  stories : List Story
deriving DecidableEq

/-- Outcome of one repository fetch: the promise either resolves with a
payload or rejects. -/
inductive FetchResult where
  | success (data : FetchData)
  | failure
deriving DecidableEq

/-- The simulated repository `getAsyncStories` of App.tsx: the promise
executor only ever calls `resolve` (after a `setTimeout` delay, abstracted
away here) with the seed collection; no code path rejects. -/
def getAsyncStories : FetchResult := FetchResult.success (FetchData.mk initialStories)

/-- The state the load orchestration in App.tsx manipulates: the reducer
state plus the `isLoading` and `isError` flags. -/
structure AppState where
  stories : List Story
  isLoading : Bool
  isError : Bool
deriving DecidableEq

/-- The component initial state: empty reducer state, both flags false. -/
def initApp : AppState := AppState.mk [] false false

/-- Start of the load effect in App.tsx: `setIsLoading(true)`. -/
def startLoad (s : AppState) : AppState := AppState.mk s.stories true s.isError

/-- Settlement of the fetch in App.tsx.  On success the `then` handler
dispatches `SET_STORIES` with `result.data.stories` and clears
`isLoading`; on failure the `catch` handler only runs `setIsError(true)`:
it neither dispatches nor touches `isLoading`. -/
def resolveLoad (s : AppState) (outcome : FetchResult) : AppState :=
  match outcome with
  | FetchResult.success d =>
      AppState.mk (storiesReducer s.stories (StoriesAction.SET_STORIES d.stories)) false s.isError
  | FetchResult.failure => AppState.mk s.stories s.isLoading true

/-- One full run of the load effect of App.tsx with a given fetch
outcome: set `isLoading`, then settle. -/
def loadEffect (s : AppState) (outcome : FetchResult) : AppState :=
  resolveLoad (startLoad s) outcome

/-- The no-duplicate-identity invariant on a story collection. -/
abbrev idsNodup (S : List Story) : Prop := (S.map Story.objectID).Nodup

/-- An action respects the invariant when a `SET_STORIES` payload has
pairwise-distinct ids; `REMOVE_STORY` needs no side condition. -/
def actionOk : StoriesAction → Prop
  | StoriesAction.SET_STORIES P => idsNodup P
  | StoriesAction.REMOVE_STORY _ => True

/-! Theorems. -/

/-- C1: for every prior state `S` and payload `P`, the reducer applied to
`SET_STORIES P` returns exactly `P`; the prior state is discarded wholesale. -/
theorem setStories_replaces (S P : List Story) :
    storiesReducer S (StoriesAction.SET_STORIES P) = P := rfl

/-- C3 counterexample: starting from the initial component state, a run of
the load effect whose fetch fails does not end with `isLoading = false`
and `isError = true`: the `catch` handler never clears `isLoading`. -/
theorem loadFailure_flags_counterexample :
    ¬ ((loadEffect initApp FetchResult.failure).isLoading = false
       ∧ (loadEffect initApp FetchResult.failure).isError = true) := by
  decide

/-- C3 amended: for every run of the load effect whose fetch fails, the
final flags are `isError = true` and `isLoading = true` (set when the
load began and never cleared on the failure path). -/
theorem loadFailure_flags (s : AppState) :
    (loadEffect s FetchResult.failure).isLoading = true
    ∧ (loadEffect s FetchResult.failure).isError = true :=
  ⟨rfl, rfl⟩

/-- C4: on the failure path no action is dispatched, so the reducer state
is exactly its value from before the load started; in particular it is
empty when the failure happens on the first load from the initial state. -/
theorem loadFailure_frame (s : AppState) :
    (loadEffect s FetchResult.failure).stories = s.stories
    ∧ (loadEffect initApp FetchResult.failure).stories = [] :=
  ⟨rfl, rfl⟩

/-- C10: the simulated repository always resolves with exactly the seed
collection, never rejects, and consequently a run of the load effect with
its outcome installs `initialStories`, clears `isLoading` and leaves
`isError` untouched: the failure branch is unreachable. -/
theorem getAsyncStories_never_fails (s : AppState) :
    getAsyncStories = FetchResult.success (FetchData.mk initialStories)
    ∧ getAsyncStories ≠ FetchResult.failure
    ∧ loadEffect s getAsyncStories = AppState.mk initialStories false s.isError :=
  ⟨rfl, by decide, rfl⟩

/-- C5 counterexample: when the store holds the empty string under the
key, cell creation returns the fallback, not the stored empty string,
because the JavaScript or-operator treats the empty string as falsy. -/
theorem useStorageStateInit_counterexample :
    useStorageStateInit storeWithEmptySearch "search" "React" ≠ "" := by
  decide

/-- C5 amended: cell creation returns the stored value exactly when the
store holds a non-empty value under the key; it returns the fallback both
when the store holds no value and when the stored value is the empty
string. -/
theorem useStorageStateInit_spec (store : String → Option String) (key fallback : String) :
    (store key = none → useStorageStateInit store key fallback = fallback)
    ∧ (store key = some "" → useStorageStateInit store key fallback = fallback)
    ∧ (∀ v, store key = some v → v ≠ "" →
        useStorageStateInit store key fallback = v) := by
  refine ⟨fun h => ?_, fun h => ?_, fun v h hv => ?_⟩
  · simp [useStorageStateInit, jsOr, h]
  · simp [useStorageStateInit, jsOr, h]
  · simp [useStorageStateInit, jsOr, h, hv]

/-- Witness for C5 amended: a store holding "Redux" under "search" yields
initial value "Redux", not the supplied fallback. -/
theorem useStorageStateInit_spec_witness :
    useStorageStateInit storeWithRedux "search" "React" = "Redux" :=
  (useStorageStateInit_spec storeWithRedux "search" "React").2.2 "Redux" rfl (by decide)

/-- An empty needle is contained in every haystack, as with
`includes("")` in JavaScript. -/
theorem jsIncludes_nil (hay : List Char) : jsIncludes [] hay = true := by
  induction hay with
  | nil => rfl
  | cons c rest ih => simp [jsIncludes, List.isPrefixOf]

/-- Every story matches the empty search term. -/
theorem titleMatches_empty (x : Story) : titleMatches x "" = true := by
  have hdata : (strToLower "").data = [] := rfl
  rw [titleMatches, hdata]
  exact jsIncludes_nil _

/-- C6: the filter projection returns a subsequence of the input (order
preserved), its members are exactly the input stories whose lower-cased
title contains the lower-cased term, the empty term keeps the whole
input, and on the singleton titled "React" the terms "react" and "REACT"
give equal results. -/
theorem searchedStories_spec (S : List Story) (term : String) :
    List.Sublist (searchedStories S term) S
    ∧ (∀ x, x ∈ searchedStories S term ↔ (x ∈ S ∧ titleMatches x term = true))
    ∧ searchedStories S "" = S
    ∧ searchedStories [story0] "react" = searchedStories [story0] "REACT" := by
  refine ⟨List.filter_sublist S, fun x => List.mem_filter, ?_, by decide⟩
  exact List.filter_eq_self.mpr (fun a _ => titleMatches_empty a)

/-- C7: re-filtering with the same term changes nothing. -/
theorem searchedStories_idem (S : List Story) (term : String) :
    searchedStories (searchedStories S term) term = searchedStories S term :=
  List.filter_eq_self.mpr (fun _a ha => (List.mem_filter.mp ha).2)

/-- When no story in the collection carries the id, the remove filter is
the identity. -/
theorem filter_remove_all_ne (x : Int) (S : List Story)
    (h : ∀ t ∈ S, x ≠ t.objectID) :
    S.filter (fun t => x != t.objectID) = S :=
  List.filter_eq_self.mpr (fun t ht => by
    simp only [bne_iff_ne, ne_eq, decide_not, Bool.not_eq_false']
    simpa using h t ht)

/-- Removing a story present in a duplicate-free collection shortens it
by exactly one. -/
theorem length_filter_remove (story : Story) (S : List Story)
    (hnd : (S.map Story.objectID).Nodup) (hmem : story ∈ S) :
    (S.filter (fun t => story.objectID != t.objectID)).length = S.length - 1 := by
  induction S with
  | nil => cases hmem
  | cons h t ih =>
      rw [List.map_cons, List.nodup_cons] at hnd
      obtain ⟨hnotin, hndt⟩ := hnd
      rcases List.mem_cons.mp hmem with rfl | hmem'
      · have hph : (story.objectID != story.objectID) = false := by simp
        rw [List.filter_cons, hph]
        simp only [Bool.false_eq_true, if_false]
        have heq : t.filter (fun x => story.objectID != x.objectID) = t := by
          apply filter_remove_all_ne
          intro a ha hcontra
          exact hnotin (hcontra ▸ List.mem_map_of_mem Story.objectID ha)
        rw [heq]
        simp
      · have hne : story.objectID ≠ h.objectID := by
          intro hcontra
          exact hnotin (hcontra ▸ List.mem_map_of_mem Story.objectID hmem')
        have hph : (story.objectID != h.objectID) = true := bne_iff_ne.mpr hne
        rw [List.filter_cons, hph]
        simp only [if_true]
        have hpos : 0 < t.length := List.length_pos_of_mem hmem'
        have hlen := ih hndt hmem'
        simp only [List.length_cons]
        omega

/-- C2: on a collection with pairwise-distinct ids, removing a member
shortens the length by one; no survivor carries the removed id; the
result is an order-preserving subsequence; and removing an id absent
from the collection leaves it unchanged. -/
theorem removeStory_spec (S : List Story) (story : Story)
    (hnd : (S.map Story.objectID).Nodup) :
    (story ∈ S →
      (storiesReducer S (StoriesAction.REMOVE_STORY story)).length = S.length - 1)
    ∧ (∀ t ∈ storiesReducer S (StoriesAction.REMOVE_STORY story),
        t.objectID ≠ story.objectID)
    ∧ List.Sublist (storiesReducer S (StoriesAction.REMOVE_STORY story)) S
    ∧ ((∀ t ∈ S, t.objectID ≠ story.objectID) →
        storiesReducer S (StoriesAction.REMOVE_STORY story) = S) := by
  simp only [storiesReducer]
  refine ⟨fun hmem => length_filter_remove story S hnd hmem, ?_, List.filter_sublist S, ?_⟩
  · intro t ht
    have hp := (List.mem_filter.mp ht).2
    rw [bne_iff_ne] at hp
    exact hp.symm
  · intro hno
    exact filter_remove_all_ne story.objectID S (fun t ht => (hno t ht).symm)

/-- Witness for C2 at the seed collection: removing `story0` from
`initialStories` shortens the length by one. -/
theorem removeStory_spec_witness :
    (initialStories.map Story.objectID).Nodup
    ∧ (storiesReducer initialStories (StoriesAction.REMOVE_STORY story0)).length
        = initialStories.length - 1 :=
  ⟨by decide, (removeStory_spec initialStories story0 (by decide)).1 (by decide)⟩

/-- C8: under the TypeScript typing of the action union, the dynamic
dispatch fails fatally (returns `none`, modelling the thrown `Error`)
exactly when the tag lies outside the closed set containing
"SET_STORIES" and "REMOVE_STORY"; for a tag inside the set it returns
normally on every state. -/
theorem storiesReducerDyn_none_iff (state : List Story) (a : DynAction)
    (h : wellTypedAction a) :
    storiesReducerDyn state a = none
      ↔ (a.type ≠ "SET_STORIES" ∧ a.type ≠ "REMOVE_STORY") := by
  obtain ⟨t, p⟩ := a
  by_cases hs : t = "SET_STORIES"
  · subst hs
    cases p with
    | stories l => simp [storiesReducerDyn]
    | story s => exact absurd rfl h
  · by_cases hr : t = "REMOVE_STORY"
    · subst hr
      cases p with
      | story s => simp [storiesReducerDyn]
      | stories l => exact absurd rfl h
    · simp [storiesReducerDyn, hs, hr]

/-- Witness for C8: dispatching a tag outside the closed set, here
"RESET", hits the fatal default branch. -/
theorem storiesReducerDyn_none_iff_witness :
    storiesReducerDyn [] (DynAction.mk "RESET" (DynPayload.stories [])) = none :=
  (storiesReducerDyn_none_iff [] (DynAction.mk "RESET" (DynPayload.stories []))
    (by show ("RESET" : String) ≠ "REMOVE_STORY"; decide)).mpr (by decide)

/-- One reducer step preserves the no-duplicate-id invariant when the
action side condition holds. -/
theorem storiesReducer_step_nodup (S : List Story) (a : StoriesAction)
    (hS : idsNodup S) (ha : actionOk a) : idsNodup (storiesReducer S a) := by
  cases a with
  | SET_STORIES P => exact ha
  | REMOVE_STORY p =>
      simp only [storiesReducer]
      exact List.Nodup.sublist
        (List.Sublist.map Story.objectID (List.filter_sublist S)) hS

/-- Folding any invariant-respecting action sequence preserves the
no-duplicate-id invariant. -/
theorem foldl_storiesReducer_nodup (acts : List StoriesAction) (S : List Story)
    (hS : idsNodup S) (hacts : ∀ x ∈ acts, actionOk x) :
    idsNodup (acts.foldl storiesReducer S) := by
  induction acts generalizing S with
  | nil => exact hS
  | cons a rest ih =>
      rw [List.foldl_cons]
      exact ih (storiesReducer S a)
        (storiesReducer_step_nodup S a hS (hacts a (List.mem_cons_self a rest)))
        (fun x hx => hacts x (List.mem_cons_of_mem a hx))

/-- C9: a reducer step from a duplicate-free state with an action whose
`SET_STORIES` payload (if any) is itself duplicate-free yields a
duplicate-free state; hence every state reachable from the empty initial
state by a sequence of such actions is duplicate-free. -/
theorem reducer_preserves_idsNodup (S : List Story) (a : StoriesAction)
    (acts : List StoriesAction) (hS : idsNodup S) (ha : actionOk a)
    (hacts : ∀ x ∈ acts, actionOk x) :
    idsNodup (storiesReducer S a) ∧ idsNodup (acts.foldl storiesReducer []) :=
  ⟨storiesReducer_step_nodup S a hS ha,
   foldl_storiesReducer_nodup acts [] (by decide) hacts⟩

/-- Witness for C9 at concrete inputs: removing `story0` from the seed
collection and loading the seed collection into the empty state both
keep ids pairwise distinct. -/
theorem reducer_preserves_idsNodup_witness :
    idsNodup (storiesReducer initialStories (StoriesAction.REMOVE_STORY story0))
    ∧ idsNodup
        (List.foldl storiesReducer [] [StoriesAction.SET_STORIES initialStories]) :=
  reducer_preserves_idsNodup initialStories (StoriesAction.REMOVE_STORY story0)
    [StoriesAction.SET_STORIES initialStories] (by decide) True.intro
    (by
      intro x hx
      rw [List.mem_singleton] at hx
      subst hx
      show idsNodup initialStories
      decide)
